import Mathlib

/-!
Shallow embedding of the CRUD-Flask-Postgres repository, centred on the
request-validation / response-serialization decorator in src/utils/__init__.py
(`validate`, its inner `wrapper`, `make_json_response`, `is_iterable_of_models`,
`validate_many_models`, `normalize_query_param`, `normalize_query`), the user
service in src/services/user/__init__.py (`user_exists`, `commit_user`,
`create_user`), the model in src/models/user/__init__.py (`UsersModel`), the
schemas in src/schemas/user/__init__.py (`CreateUser`, `CreatedUser`,
`UsersList`) and the routes in src/routes/user/__init__.py.

Python-level conventions of the embedding:
- exceptions are explicit: `Except PyExc` results, or dedicated outcome types;
- pydantic construction `Model(**value)` is a function returning `PyParse`
  (ok / ValidationError with an error list / TypeError);
- iteration of a Python value is an `Option (List _)` view (`none` when
  iterating raises TypeError);
- machine state touched by the decorator (the monkey-patched request
  attributes, the number of handler invocations, the number of session
  rollbacks) is returned explicitly in `WrapResult`.
-/

variable {M E D Q B F ι φ α β : Type}

/-- One pydantic error entry, as produced by ValidationError.errors():
a dict with keys loc, msg and type. -/
structure PErr where
  loc : List String
  msg : String
  ty : String
deriving DecidableEq

/-- Outcome of a pydantic model construction `Model(**value)`:
success, ValidationError (carrying .errors()), or TypeError
(e.g. when `value` is not a mapping and ** fails). -/
inductive PyParse (α : Type) where
  | ok : α → PyParse α
  | vErr : List PErr → PyParse α
  | tErr : PyParse α
deriving DecidableEq

/-- Python exceptions that the embedded code can raise. `httpExc` stands for
HTTPError(message, code) from src/utils (NotFound fixes code 404,
Forbidden fixes code 403). -/
inductive PyExc where
  | indexError
  | typeError
  | attributeError
  | invalidIterableOfModels
  | httpExc : String → Nat → PyExc
deriving DecidableEq

/-- Forbidden(message) from src/utils/__init__.py: an HTTPError with code 403. -/
def Forbidden (message : String) : PyExc := PyExc.httpExc message 403

/-- The synthetic error produced by validate_many_models when iterating the
content raises TypeError (src/utils/__init__.py lines 104-110). -/
def rootArrayError : List PErr :=
  [⟨[ "root" ], "is not an array of objects", "type_error.array"⟩]

/-- Result of validate_many_models: the list of constructed models, or a
ManyModelValidationError carrying an error list (its .errors()). -/
inductive ManyResult (α : Type) where
  | ok : List α → ManyResult α
  | manyError : List PErr → ManyResult α
deriving DecidableEq

/-- The list comprehension `[model(**fields) for fields in content]`:
elements are constructed left to right and the first raised exception
aborts the comprehension. -/
def parseEach (parse : ι → PyParse α) : List ι → PyParse (List α)
  | [] => PyParse.ok []
  | x :: xs =>
    match parse x with
    | PyParse.ok m =>
      match parseEach parse xs with
      | PyParse.ok ms => PyParse.ok (m :: ms)
      | PyParse.vErr e => PyParse.vErr e
      | PyParse.tErr => PyParse.tErr
    | PyParse.vErr e => PyParse.vErr e
    | PyParse.tErr => PyParse.tErr

/-- validate_many_models (src/utils/__init__.py lines 99-113): builds
`[model(**fields) for fields in content]`; a TypeError (content not iterable,
or an element not a mapping) becomes ManyModelValidationError with the
synthetic root error; a ValidationError from an element becomes
ManyModelValidationError with that element's errors. `content` is the
iteration view of the body (`none` when iteration raises TypeError). -/
def validate_many_models (parse : ι → PyParse α) :
    Option (List ι) → ManyResult α
  | none => ManyResult.manyError rootArrayError
  | some items =>
    match parseEach parse items with
    | PyParse.ok ms => ManyResult.ok ms
    | PyParse.vErr e => ManyResult.manyError e
    | PyParse.tErr => ManyResult.manyError rootArrayError

/-- A normalized query-parameter value: either a single string (a flattened
one-element list) or the original list of values. -/
inductive QVal where
  | one : String → QVal
  | many : List String → QVal
deriving DecidableEq

/-- normalize_query_param (src/utils/__init__.py lines 116-124):
`value if len(value) > 1 else value[0]`; indexing an empty list raises
IndexError. -/
def normalize_query_param (value : List String) : Except PyExc QVal :=
  if value.length > 1 then Except.ok (QVal.many value)
  else
    match value with
    | v :: _ => Except.ok (QVal.one v)
    | [] => Except.error PyExc.indexError

/-- normalize_query (src/utils/__init__.py lines 127-135): the dict
comprehension `{k: normalize_query_param(v) for k, v in params.items()}`
over `params.to_dict(flat=False)`; the first exception raised by
normalize_query_param propagates. The multimap is an association list
(insertion order of the MultiDict, keys distinct). -/
def normalize_query (params : List (String × List String)) :
    Except PyExc (List (String × QVal)) :=
  match params with
  | [] => Except.ok []
  | (k, v) :: rest =>
    match normalize_query_param v with
    | Except.error e => Except.error e
    | Except.ok nv =>
      match normalize_query rest with
      | Except.error e => Except.error e
      | Except.ok nrest => Except.ok ((k, nv) :: nrest)

/-- Comparison definition written from the spec's words (section 4.1 / 8):
a key whose value list has exactly one element is flattened to that value,
a repeated key keeps the ordered list of all its occurrences. -/
def specNormalizeParam (value : List String) : QVal :=
  match value with
  | [v] => QVal.one v
  | l => QVal.many l

/-- A decoded JSON / Python value, as returned by request.get_json(). -/
inductive JVal where
  | str : String → JVal
  | num : Int → JVal
  | arr : List JVal → JVal
  | obj : List (String × JVal) → JVal
  | null : JVal

/-- Python iteration of a JSON value: a list iterates its elements, a string
its characters, a dict its keys; numbers and None are not iterable
(iterating them raises TypeError, modelled as `none`). -/
def JVal.pyIter : JVal → Option (List JVal)
  | JVal.arr xs => some xs
  | JVal.str s => some (s.data.map (fun c => JVal.str (String.mk [c])))
  | JVal.obj kvs => some (kvs.map (fun kv => JVal.str kv.1))
  | JVal.num _ => none
  | JVal.null => none

/-- Schema CreateUser (src/schemas/user/__init__.py): username, email,
password, all required str fields. -/
structure CreateUser where
  username : String
  email : String
  password : String
deriving DecidableEq

/-- Schema CreatedUser (src/schemas/user/__init__.py): the public projection,
username and email only. -/
structure CreatedUser where
  username : String
  email : String
deriving DecidableEq

/-- Lookup of a key in a decoded JSON object. -/
def lookupKey (kvs : List (String × JVal)) (k : String) : Option JVal :=
  (kvs.find? (fun kv => kv.1 == k)).map (fun kv => kv.2)

/-- Pydantic v1 validation of one required str field: a missing key yields
the field-required error, a string is accepted, a number is coerced to str,
anything else yields the str-type error. -/
def strFieldR (kvs : List (String × JVal)) (f : String) :
    Except (List PErr) String :=
  match lookupKey kvs f with
  | none => Except.error [⟨[f], "field required", "value_error.missing"⟩]
  | some (JVal.str s) => Except.ok s
  | some (JVal.num n) => Except.ok (toString n)
  | some _ => Except.error [⟨[f], "str type expected", "type_error.str"⟩]

/-- Errors contributed by one field result (empty when the field parsed). -/
def errList (r : Except (List PErr) String) : List PErr :=
  match r with
  | Except.ok _ => []
  | Except.error es => es

/-- Pydantic construction CreateUser(**value): a non-mapping value raises
TypeError; otherwise the three declared fields are validated in declaration
order and all field errors are reported together (extra keys are ignored,
the pydantic v1 default). -/
def parseCreateUser (v : JVal) : PyParse CreateUser :=
  match v with
  | JVal.obj kvs =>
    match strFieldR kvs "username", strFieldR kvs "email",
        strFieldR kvs "password" with
    | Except.ok u, Except.ok e, Except.ok p => PyParse.ok ⟨u, e, p⟩
    | ru, re, rp => PyParse.vErr (errList ru ++ errList re ++ errList rp)
  | _ => PyParse.tErr

/-- Runtime class of one object in a handler return value, for the isinstance
checks of is_iterable_of_models: a pydantic BaseModel, a src.utils.bases
BaseEntity, a src.utils.bases BaseModel (aliased BaseModelDB), or anything
else. `M`, `E`, `D` are the respective carried data. -/
inductive Obj (M E D : Type) where
  | pyModel : M → Obj M E D
  | entity : E → Obj M E D
  | dbModel : D → Obj M E D
  | otherObj : Obj M E D
deriving DecidableEq

def Obj.isPyModel : Obj M E D → Bool
  | Obj.pyModel _ => true
  | _ => false

def Obj.isEntity : Obj M E D → Bool
  | Obj.entity _ => true
  | _ => false

def Obj.isDbModel : Obj M E D → Bool
  | Obj.dbModel _ => true
  | _ => false

/-- A handler return value `res` as inspected by the wrapper: a pydantic
model, a Python list of objects, a 2-tuple of a model and a status code, or
some other non-iterable value (the raw-passthrough case). Python values that
are iterable but none of these shapes are not needed by the claims. -/
inductive RVal (M E D : Type) where
  | model : M → RVal M E D
  | list : List (Obj M E D) → RVal M E D
  | pair : M → Nat → RVal M E D
  | nonIter : RVal M E D
deriving DecidableEq

/-- isinstance(res, list). -/
def RVal.isList : RVal M E D → Bool
  | RVal.list _ => true
  | _ => false

/-- Python iteration of a return value: a list yields its elements; a 2-tuple
yields the model and the integer status; a pydantic model yields its
(name, value) field pairs — every schema in this repository has at least one
field and field pairs are plain tuples, so the view is a non-empty list of
non-model objects; other values raise TypeError (`none`). -/
def RVal.iterItems : RVal M E D → Option (List (Obj M E D))
  | RVal.list objs => some objs
  | RVal.pair m _ => some [Obj.pyModel m, Obj.otherObj]
  | RVal.model _ => some [Obj.otherObj]
  | RVal.nonIter => none

/-- The value `res` seen as the single content of a serialization through a
response model (`serialize(content)` in make_json_response): a model is the
model itself, anything else is some non-model object. -/
def RVal.asObj : RVal M E D → Obj M E D
  | RVal.model m => Obj.pyModel m
  | _ => Obj.otherObj

/-- is_iterable_of_models (src/utils/__init__.py lines 88-96): all elements
pydantic BaseModel, or all BaseEntity, or all BaseModelDB; a TypeError while
iterating (content not iterable) returns False. Note `all` is vacuously true
on an empty iterable. -/
def is_iterable_of_models (content : Option (List (Obj M E D))) : Bool :=
  match content with
  | none => false
  | some objs =>
    objs.all Obj.isPyModel || objs.all Obj.isEntity || objs.all Obj.isDbModel

/-- The accumulated error dict `err` of the wrapper, keyed by input bucket
(src/utils/__init__.py lines 191-216). -/
structure ErrMap where
  query_params : Option (List PErr)
  body_params : Option (List PErr)
  form_params : Option (List PErr)
deriving DecidableEq

/-- Python truthiness of the err dict: empty iff no bucket was recorded. -/
def ErrMap.isEmpty (e : ErrMap) : Bool :=
  e.query_params.isNone && e.body_params.isNone && e.form_params.isNone

/-- The value stored in ErrorSchema.error (typed Any in
src/utils/bases.py): the accumulated error map, an HTTPError message (a
str), or — on the SQLAlchemyError branch — the raw exception object itself
(identified here by its message), which json.dumps cannot encode. -/
inductive ErrVal where
  | map : ErrMap → ErrVal
  | msg : String → ErrVal
  | dbExc : String → ErrVal
deriving DecidableEq

/-- ErrorSchema (src/utils/bases.py): error (Any) and code (int). -/
structure ErrorSchema where
  error : ErrVal
  code : Nat
deriving DecidableEq

/-- JSON rendering of a string (the strings below need no escaping). -/
def jsonStr (s : String) : String := "\"" ++ s ++ "\""

/-- One pydantic error entry rendered as JSON. -/
def perrJson (e : PErr) : String :=
  "\x7b\"loc\": [" ++ String.intercalate ", " (e.loc.map jsonStr)
    ++ "], \"msg\": " ++ jsonStr e.msg ++ ", \"type\": " ++ jsonStr e.ty
    ++ "\x7d"

/-- A list of pydantic error entries rendered as a JSON array. -/
def perrListJson (es : List PErr) : String :=
  "[" ++ String.intercalate ", " (es.map perrJson) ++ "]"

/-- The entries of the err dict present in an ErrMap, rendered in insertion
order (query, body, form). -/
def bucketStrings (m : ErrMap) : List String :=
  (match m.query_params with
    | some es => [ "\"query_params\": " ++ perrListJson es ]
    | none => []) ++
  (match m.body_params with
    | some es => [ "\"body_params\": " ++ perrListJson es ]
    | none => []) ++
  (match m.form_params with
    | some es => [ "\"form_params\": " ++ perrListJson es ]
    | none => [])

/-- The err dict rendered as a JSON object. -/
def errMapJson (m : ErrMap) : String :=
  "\x7b" ++ String.intercalate ", " (bucketStrings m) ++ "\x7d"

/-- json.dumps of the Any-typed error value with pydantic v1's encoder: the
err dict (str keys, lists of error dicts) and a str message are encodable;
an exception object finds no entry in ENCODERS_BY_TYPE (pydantic v1 encodes
only BaseModel, dataclasses and a fixed table of standard types), so
json.dumps raises TypeError. -/
def errValJson : ErrVal → Except PyExc String
  | ErrVal.map m => Except.ok (errMapJson m)
  | ErrVal.msg s => Except.ok (jsonStr s)
  | ErrVal.dbExc _ => Except.error PyExc.typeError

/-- The JSON body of an ErrorSchema whose error value encoded to s. -/
def errSchemaBody (s : String) (code : Nat) : String :=
  "\x7b\"error\": " ++ s ++ ", \"code\": " ++ toString code ++ "\x7d"

/-- ErrorSchema.json(): json.dumps of the two fields; it raises whatever the
encoding of the error value raises — in particular TypeError for the raw
SQLAlchemyError object that the 500 path stores in the error field. -/
def errorSchemaJson (e : ErrorSchema) : Except PyExc String :=
  match errValJson e.error with
  | Except.ok s => Except.ok (errSchemaBody s e.code)
  | Except.error exc => Except.error exc

/-- A Flask response as produced by make_response plus the mimetype
assignment. -/
structure JResponse where
  body : String
  status : Nat
  mimetype : String
deriving DecidableEq

/-- The f-string of make_json_response for many content:
a bracket-enclosed, comma-joined sequence of serialized items. -/
def joinJson (items : List String) : String :=
  "[" ++ String.intercalate ", " items ++ "]"

/-- Sequencing of fallible per-item serializations: the first raised
exception propagates. -/
def collectJson : List (Except PyExc String) → Except PyExc (List String)
  | [] => Except.ok []
  | r :: rs =>
    match r with
    | Except.error e => Except.error e
    | Except.ok s =>
      match collectJson rs with
      | Except.error e => Except.error e
      | Except.ok ss => Except.ok (s :: ss)

/-- A configured response_model (src/utils/__init__.py lines 72-77):
its Config.orm_mode flag and the two serialization adapters
`from_orm(item).json(exclude_none)` and `parse_obj(item).json(exclude_none)`.
Pydantic raises ValidationError when the item does not fit the schema; the
adapters are modelled as total functions and the claims below only exercise
fitting content. -/
structure RespModel (M E D : Type) where
  orm_mode : Bool
  fromOrmJson : Bool → Obj M E D → String
  parseObjJson : Bool → Obj M E D → String

/-- Line 73: serialize = response_model.from_orm if orm_mode else
response_model.parse_obj, composed with .json(exclude_none). -/
def RespModel.serialize (rm : RespModel M E D) (exclude_none : Bool)
    (o : Obj M E D) : String :=
  if rm.orm_mode then rm.fromOrmJson exclude_none o
  else rm.parseObjJson exclude_none o

/-- The content argument of make_json_response as used by the wrapper:
either a handler return value or an ErrorSchema instance. -/
inductive Content (M E D : Type) where
  | res : RVal M E D → Content M E D
  | errS : ErrorSchema → Content M E D

/-- Iteration view of the content (the many branches iterate it).
An ErrorSchema, like any pydantic model, iterates as its two (name, value)
field pairs; the wrapper never passes an ErrorSchema with many=True. -/
def Content.items : Content M E D → Option (List (Obj M E D))
  | Content.res r => r.iterItems
  | Content.errS _ => some [Obj.otherObj, Obj.otherObj]

/-- The content as the single item fed to a response-model serialization. -/
def Content.asObj : Content M E D → Obj M E D
  | Content.res r => r.asObj
  | Content.errS _ => Obj.otherObj

/-- The serialization environment: `.json(exclude_none)` on handler-returned
pydantic models, and `.json(exclude_none)` on iterated objects in the
no-response-model many path (raising AttributeError on objects without a
json method). ErrorSchema serialization is the concrete errorSchemaJson. -/
structure SerCtx (M E D : Type) where
  serM : Bool → M → String
  objJson : Bool → Obj M E D → Except PyExc String

/-- make_json_response (src/utils/__init__.py lines 63-85): with a
response_model, serialize through it — joined over the iterated content if
many, else once on the content; without one, `.json` the content — joined if
many, else once (an ErrorSchema serializes via errorSchemaJson, which may
itself raise; a non-model, non-ErrorSchema single content has no json
method). The status code is the
one given; the mimetype is always application/json. -/
def make_json_response (sc : SerCtx M E D) (content : Content M E D)
    (status_code : Nat) (exclude_none : Bool) (many : Bool)
    (response_model : Option (RespModel M E D)) : Except PyExc JResponse :=
  match response_model with
  | some rm =>
    if many then
      match content.items with
      | some objs =>
        Except.ok ⟨joinJson (objs.map (rm.serialize exclude_none)),
          status_code, "application/json"⟩
      | none => Except.error PyExc.typeError
    else
      Except.ok ⟨rm.serialize exclude_none content.asObj, status_code,
        "application/json"⟩
  | none =>
    if many then
      match content.items with
      | some objs =>
        match collectJson (objs.map (sc.objJson exclude_none)) with
        | Except.ok ss =>
          Except.ok ⟨joinJson ss, status_code, "application/json"⟩
        | Except.error e => Except.error e
      | none => Except.error PyExc.typeError
    else
      match content with
      | Content.res (RVal.model m) =>
        Except.ok ⟨sc.serM exclude_none m, status_code, "application/json"⟩
      | Content.errS es =>
        match errorSchemaJson es with
        | Except.ok js => Except.ok ⟨js, status_code, "application/json"⟩
        | Except.error exc => Except.error exc
      | Content.res _ => Except.error PyExc.attributeError

/-- The parsed body attached to request.body_params: one model, or — with
request_body_many — a list of models. -/
inductive Parsed (β : Type) where
  | one : β → Parsed β
  | many : List β → Parsed β
deriving DecidableEq

/-- Outcome of invoking the wrapped handler: a normal return value, a raised
HTTPError(message, code), a raised SQLAlchemyError (with its detail), or any
other raised exception. -/
inductive HOut (M E D : Type) where
  | ret : RVal M E D → HOut M E D
  | httpError : String → Nat → HOut M E D
  | dbError : String → HOut M E D
  | exc : PyExc → HOut M E D
deriving DecidableEq

/-- Outcome of one wrapper invocation: a Flask JSON response, the raw
handler value returned unmodified (line 271), or an exception that
propagates uncaught out of the wrapper. -/
inductive WOut (M E D : Type) where
  | response : JResponse → WOut M E D
  | passthrough : RVal M E D → WOut M E D
  | uncaught : PyExc → WOut M E D
deriving DecidableEq

/-- The observable result of one wrapper invocation: its outcome, the
attributes monkey-patched onto the request at lines 220-222 (`none` when the
wrapper raised before reaching them), the number of times the wrapped
handler was invoked, and the number of db.session.rollback() calls. -/
structure WrapResult (Q B F M E D : Type) where
  out : WOut M E D
  attached : Option (Option Q × Option (Parsed B) × Option F)
  handlerCalls : Nat
  rollbacks : Nat
deriving DecidableEq

/-- The configuration of one @validate(...) application
(src/utils/__init__.py lines 138-147). Declared schemas are carried as
their pydantic construction functions `Schema(**value)`. -/
structure WConfig (Q B F M E D ι φ : Type) where
  query : Option (List (String × QVal) → PyParse Q)
  body : Option (ι → PyParse B)
  form : Option (φ → PyParse F)
  on_success_status : Nat
  exclude_none : Bool
  response_many : Bool
  request_body_many : Bool
  response_model : Option (RespModel M E D)

/-- The in-flight request: the query multimap (request.args as
to_dict(flat=False)), the decoded JSON body (request.get_json()), and the
form data (request.form). -/
structure Req (ι φ : Type) where
  args : List (String × List String)
  json : ι
  form : φ

/-- Lines 192-197: parse the query bucket. normalize_query may raise
(uncaught); only ValidationError is caught into the error map; a TypeError
from query(**query_params) would propagate. -/
def parseQueryStep (queryS : Option (List (String × QVal) → PyParse Q))
    (args : List (String × List String)) :
    Except PyExc (Option Q × Option (List PErr)) :=
  match queryS with
  | none => Except.ok (none, none)
  | some qs =>
    match normalize_query args with
    | Except.error e => Except.error e
    | Except.ok qp =>
      match qs qp with
      | PyParse.ok q => Except.ok (some q, none)
      | PyParse.vErr ve => Except.ok (none, some ve)
      | PyParse.tErr => Except.error PyExc.typeError

/-- Lines 198-210: parse the body bucket. With request_body_many the body is
run through validate_many_models (which converts TypeError into the
synthetic error); without it, body(**body_params) only has its
ValidationError caught — a TypeError (body not a mapping, e.g. a JSON
array or null) propagates uncaught. -/
def parseBodyStep (bodyS : Option (ι → PyParse B)) (request_body_many : Bool)
    (elems : ι → Option (List ι)) (json : ι) :
    Except PyExc (Option (Parsed B) × Option (List PErr)) :=
  match bodyS with
  | none => Except.ok (none, none)
  | some bs =>
    if request_body_many then
      match validate_many_models bs (elems json) with
      | ManyResult.ok ms => Except.ok (some (Parsed.many ms), none)
      | ManyResult.manyError es => Except.ok (none, some es)
    else
      match bs json with
      | PyParse.ok m => Except.ok (some (Parsed.one m), none)
      | PyParse.vErr ve => Except.ok (none, some ve)
      | PyParse.tErr => Except.error PyExc.typeError

/-- Lines 211-216: parse the form bucket; only ValidationError is caught. -/
def parseFormStep (formS : Option (φ → PyParse F)) (form : φ) :
    Except PyExc (Option F × Option (List PErr)) :=
  match formS with
  | none => Except.ok (none, none)
  | some fs =>
    match fs form with
    | PyParse.ok f => Except.ok (some f, none)
    | PyParse.vErr ve => Except.ok (none, some ve)
    | PyParse.tErr => Except.error PyExc.typeError

/-- The values q, b, f and the error dict at the end of the parse phase
(just before lines 220-226). -/
structure ParsePhase (Q B F : Type) where
  q : Option Q
  b : Option (Parsed B)
  f : Option F
  err : ErrMap
deriving DecidableEq

/-- Lines 191-216 of the wrapper: the three buckets are parsed in order
query, body, form; errors accumulate in the err dict and do not
short-circuit one another, but an exception other than ValidationError
aborts the wrapper. -/
def parse_phase (cfg : WConfig Q B F M E D ι φ)
    (elems : ι → Option (List ι)) (req : Req ι φ) :
    Except PyExc (ParsePhase Q B F) :=
  match parseQueryStep cfg.query req.args with
  | Except.error e => Except.error e
  | Except.ok (q, qe) =>
    match parseBodyStep cfg.body cfg.request_body_many elems req.json with
    | Except.error e => Except.error e
    | Except.ok (b, be) =>
      match parseFormStep cfg.form req.form with
      | Except.error e => Except.error e
      | Except.ok (f, fe) => Except.ok ⟨q, b, f, ⟨qe, be, fe⟩⟩

/-- Lifts a make_json_response result into a wrapper outcome: an exception
raised while building the response propagates uncaught. -/
def respOf : Except PyExc JResponse → WOut M E D
  | Except.ok r => WOut.response r
  | Except.error e => WOut.uncaught e

/-- Lines 244-271 of the wrapper, for a handler that returned normally:
with a response_model, make_json_response with many := isinstance(res, list)
(response_many is not consulted on this branch); else with response_many,
is_iterable_of_models gates between an array response and an uncaught
InvalidIterableOfModelsException; else a bare model, a (model, status)
2-tuple, or the raw value passed through. -/
def serialize_phase (cfg : WConfig Q B F M E D ι φ) (sc : SerCtx M E D)
    (res : RVal M E D) : WOut M E D :=
  match cfg.response_model with
  | some rm =>
    respOf (make_json_response sc (Content.res res) cfg.on_success_status
      cfg.exclude_none res.isList (some rm))
  | none =>
    if cfg.response_many then
      if is_iterable_of_models res.iterItems then
        respOf (make_json_response sc (Content.res res) cfg.on_success_status
          cfg.exclude_none true cfg.response_model)
      else WOut.uncaught PyExc.invalidIterableOfModels
    else
      match res with
      | RVal.model m =>
        respOf (make_json_response sc (Content.res (RVal.model m))
          cfg.on_success_status cfg.exclude_none false none)
      | RVal.pair m c =>
        respOf (make_json_response sc (Content.res (RVal.model m)) c
          cfg.exclude_none false none)
      | r => WOut.passthrough r

/-- The wrapper produced by @validate(...) (src/utils/__init__.py lines
190-271): parse phase; attach q, b, f to the request; early 400 return when
the err dict is non-empty (the handler is never invoked); otherwise invoke
the handler, catching HTTPError into a (message, code) JSON error response
and SQLAlchemyError into one rollback plus a (detail, 500) JSON error
response, while any other exception propagates; finally the serialization
phase. -/
def wrapper (cfg : WConfig Q B F M E D ι φ) (sc : SerCtx M E D)
    (elems : ι → Option (List ι))
    (handler : Option Q → Option (Parsed B) → Option F → HOut M E D)
    (req : Req ι φ) : WrapResult Q B F M E D :=
  match parse_phase cfg elems req with
  | Except.error e => ⟨WOut.uncaught e, none, 0, 0⟩
  | Except.ok pp =>
    let att := some (pp.q, pp.b, pp.f)
    if pp.err.isEmpty then
      match handler pp.q pp.b pp.f with
      | HOut.ret res => ⟨serialize_phase cfg sc res, att, 1, 0⟩
      | HOut.httpError m c =>
        ⟨respOf (make_json_response sc (Content.errS ⟨ErrVal.msg m, c⟩) c
          false false none), att, 1, 0⟩
      | HOut.dbError d =>
        ⟨respOf (make_json_response sc (Content.errS ⟨ErrVal.dbExc d, 500⟩)
          500 false false none), att, 1, 1⟩
      | HOut.exc e => ⟨WOut.uncaught e, att, 1, 0⟩
    else
      ⟨respOf (make_json_response sc (Content.errS ⟨ErrVal.map pp.err, 400⟩)
        400 false false none), att, 0, 0⟩

/-- A row of the users table as declared by UsersModel
(src/models/user/__init__.py): columns fullname, email, password. -/
structure UsersRow where
  fullname : String
  email : String
  password : String
deriving DecidableEq

/-- The attribute names defined on the UsersModel class: the three columns of
its body plus id, created_on, updated_on and deleted inherited from
BaseEntity (src/utils/bases.py). There is no username attribute. -/
def usersModelAttrNames : List String :=
  [ "fullname", "email", "password", "id", "created_on", "updated_on",
    "deleted" ]

/-- Python attribute access UsersModel.name: AttributeError when the class
does not define the attribute. -/
def usersModelGetCol (name : String) : Except PyExc String :=
  if name ∈ usersModelAttrNames then Except.ok name
  else Except.error PyExc.attributeError

/-- The value of a column of a row, by column name. -/
def UsersRow.colVal (r : UsersRow) : String → String
  | "fullname" => r.fullname
  | "email" => r.email
  | "password" => r.password
  | _ => ""

/-- UserService.user_exists (src/services/user/__init__.py lines 19-20):
builds the filter or_(UsersModel.username == str(username),
UsersModel.email == str(email)) and asks whether .first() finds a row. The
first attribute access, UsersModel.username, raises AttributeError because
UsersModel declares fullname, email and password but no username column. -/
def user_exists (rows : List UsersRow) (username email : String) :
    Except PyExc Bool :=
  match usersModelGetCol "username" with
  | Except.error e => Except.error e
  | Except.ok cu =>
    match usersModelGetCol "email" with
    | Except.error e => Except.error e
    | Except.ok ce =>
      Except.ok (rows.any (fun r =>
        r.colVal cu == username || r.colVal ce == email))

/-- The SQLAlchemy declarative constructor UsersModel(**kwargs): it sets each
keyword onto the instance and raises TypeError for a keyword that is not a
mapped attribute. -/
def usersModelInit (kwargs : List (String × String)) :
    Except PyExc UsersRow :=
  if kwargs.all (fun kv => kv.1 ∈ usersModelAttrNames) then
    Except.ok
      ⟨((kwargs.find? (fun kv => kv.1 == "fullname")).map
          (fun kv => kv.2)).getD "",
        ((kwargs.find? (fun kv => kv.1 == "email")).map
          (fun kv => kv.2)).getD "",
        ((kwargs.find? (fun kv => kv.1 == "password")).map
          (fun kv => kv.2)).getD ""⟩
  else Except.error PyExc.typeError

/-- UserService.commit_user (src/services/user/__init__.py lines 13-18):
constructs UsersModel(**request.body_params.dict()), hashes the password,
adds and commits the row, then returns
CreatedUser(username=user.username, email=user.email). The constructor
raises TypeError (username is not a column); were it to succeed, the
attribute read user.username would raise AttributeError. -/
def commit_user (hash : String → String) (rows : List UsersRow)
    (kwargs : List (String × String)) :
    Except PyExc (List UsersRow × CreatedUser) :=
  match usersModelInit kwargs with
  | Except.error e => Except.error e
  | Except.ok u0 =>
    let u : UsersRow := { u0 with password := hash u0.password }
    let rows2 := rows ++ [u]
    match usersModelGetCol "username" with
    | Except.error e => Except.error e
    | Except.ok cu =>
      match usersModelGetCol "email" with
      | Except.error e => Except.error e
      | Except.ok ce => Except.ok (rows2, ⟨u.colVal cu, u.colVal ce⟩)

/-- UserService.create_user (src/services/user/__init__.py lines 22-25):
checks user_exists, raises Forbidden("this user already exists") when found,
otherwise commits. The request body dict is
(username, email, password). -/
def create_user (hash : String → String) (rows : List UsersRow)
    (username email password : String) :
    Except PyExc (List UsersRow × CreatedUser) :=
  match user_exists rows username email with
  | Except.error e => Except.error e
  | Except.ok true => Except.error (Forbidden "this user already exists")
  | Except.ok false =>
    commit_user hash rows
      [( "username", username ), ( "email", email ),
        ( "password", password )]

/-- The method names defined on UserService (src/services/user/__init__.py):
commit_user, user_exists and create_user; BaseService contributes only the
constructor. There is no get_all_users method. -/
def userServiceMethodNames : List String :=
  [ "commit_user", "user_exists", "create_user" ]

/-- Python attribute access on a UserService instance: AttributeError when
neither the instance nor its classes define the name. -/
def userServiceGetMethod (name : String) : Except PyExc String :=
  if name ∈ userServiceMethodNames then Except.ok name
  else Except.error PyExc.attributeError

/-- The handler of GET /v1/user/get-all (src/routes/user/__init__.py lines
11-14): UserService(db.session).get_all_users(). The attribute lookup of
get_all_users raises AttributeError; the ok branch (calling whichever method
was found with no arguments, itself a TypeError) is unreachable. -/
def get_all_users_handler (_rows : List UsersRow) : HOut M E D :=
  match userServiceGetMethod "get_all_users" with
  | Except.error e => HOut.exc e
  | Except.ok _ => HOut.exc PyExc.typeError

/-- The handler of POST /v1/user/create (src/routes/user/__init__.py lines
6-9): UserService(db.session).create_user(**request.body_params.dict()).
A raised HTTPError or other exception propagates to the wrapper; when
body_params is None, .dict() raises AttributeError. -/
def create_user_handler (hash : String → String) (rows : List UsersRow)
    (_q : Option Unit) (b : Option (Parsed CreateUser)) (_f : Option Unit) :
    HOut CreatedUser Unit Unit :=
  match b with
  | some (Parsed.one cu) =>
    match create_user hash rows cu.username cu.email cu.password with
    | Except.ok (_, created) => HOut.ret (RVal.model created)
    | Except.error (PyExc.httpExc m c) => HOut.httpError m c
    | Except.error e => HOut.exc e
  | _ => HOut.exc PyExc.attributeError

/-- CreatedUser.json(exclude_none): both fields are required strings, so
exclude_none never removes anything. -/
def createdUserJson (_exclude_none : Bool) (u : CreatedUser) : String :=
  "\x7b\"username\": " ++ jsonStr u.username ++ ", \"email\": "
    ++ jsonStr u.email ++ "\x7d"

/-- Serialization of an iterated object through the CreatedUser schema
adapters (parse_obj accepts a pydantic model with matching fields; other
values would raise and never occur in the developments below). -/
def createdUserObjJson (exclude_none : Bool) :
    Obj CreatedUser Unit Unit → String
  | Obj.pyModel u => createdUserJson exclude_none u
  | _ => ""

/-- The response_model CreatedUser as configured on POST /v1/user/create:
no Config on the schema, so orm_mode is the pydantic default False. -/
def createdUserRM : RespModel CreatedUser Unit Unit :=
  ⟨false, createdUserObjJson, createdUserObjJson⟩

/-- The concrete serialization environment used by the witnesses: handler
models are CreatedUser instances; iterated objects serialize via
CreatedUser.json when they are pydantic models and raise AttributeError
otherwise (BaseEntity and BaseModelDB rows have no json method). -/
def scCU : SerCtx CreatedUser Unit Unit :=
  ⟨createdUserJson,
    fun ex o =>
      match o with
      | Obj.pyModel u => Except.ok (createdUserJson ex u)
      | _ => Except.error PyExc.attributeError⟩

/-- The response_model UsersList of GET /v1/user/get-all: no Config on the
schema, so orm_mode is the pydantic default False. Its adapters are never
reached below — the handler raises before serialization. -/
def usersListRM : RespModel CreatedUser Unit Unit :=
  ⟨false, fun _ _ => "", fun _ _ => ""⟩

/-- The @validate(body=CreateUser, response_model=CreatedUser) configuration
of POST /v1/user/create, all other options at their defaults. -/
def cfgCreate : WConfig Unit CreateUser Unit CreatedUser Unit Unit JVal JVal :=
  ⟨none, some parseCreateUser, none, 200, false, false, false,
    some createdUserRM⟩

/-- The @validate(response_model=UsersList) configuration of
GET /v1/user/get-all, all other options at their defaults. -/
def cfgGetAll : WConfig Unit Unit Unit CreatedUser Unit Unit JVal JVal :=
  ⟨none, none, none, 200, false, false, false, some usersListRM⟩

/-- A configuration with a response_model and response_many=True and no
declared schemas. -/
def cfgC3 : WConfig Unit Unit Unit CreatedUser Unit Unit JVal JVal :=
  ⟨none, none, none, 200, false, true, false, some createdUserRM⟩

/-- A configuration with response_many=True, no response_model and no
declared schemas. -/
def cfgC4 : WConfig Unit Unit Unit CreatedUser Unit Unit JVal JVal :=
  ⟨none, none, none, 200, false, true, false, none⟩

/-- A request with no query string, no JSON body and no form data. -/
def reqNull : Req JVal JVal := ⟨[], JVal.null, JVal.null⟩

/-- A valid create-user body element. -/
def bodyValid : JVal := JVal.obj
  [( "username", JVal.str "u3" ), ( "email", JVal.str "e3" ),
    ( "password", JVal.str "p3" )]

/-- A body element missing its email field. -/
def bodyMissingEmail : JVal := JVal.obj
  [( "username", JVal.str "u1" ), ( "password", JVal.str "p1" )]

/-- A body element missing its password field. -/
def bodyMissingPassword : JVal := JVal.obj
  [( "username", JVal.str "u2" ), ( "email", JVal.str "e2" )]

/-- The body of the create scenario of the spec:
username a, email a@x.com, password p. -/
def bodyCreateA : JVal := JVal.obj
  [( "username", JVal.str "a" ), ( "email", JVal.str "a@x.com" ),
    ( "password", JVal.str "p" )]

/-- The pydantic error for a missing email field. -/
def emailRequiredErr : PErr :=
  ⟨[ "email" ], "field required", "value_error.missing"⟩

/-- The pydantic error for a missing password field. -/
def passwordRequiredErr : PErr :=
  ⟨[ "password" ], "field required", "value_error.missing"⟩

/-! ## Theorems for the claims -/

/-- Helper: when l is not empty, normalize_query_param agrees with the
spec-side flattening rule. -/
theorem normalize_query_param_nonempty (l : List String) (h : l ≠ []) :
    normalize_query_param l = Except.ok (specNormalizeParam l) := by
  match l with
  | [] => exact absurd rfl h
  | [v] => rfl
  | v :: w :: t =>
    unfold normalize_query_param
    rw [if_pos]
    · rfl
    · simp only [List.length_cons]
      omega

/-- C6: for every query-parameter multimap (every key of a query string
carries at least one value), normalization maps a key whose value list has
exactly one element to that single flattened value and a repeated key to the
ordered list of all its occurrences, key order preserved. -/
theorem C6_normalize_query_agrees_with_spec
    (params : List (String × List String))
    (h : ∀ p ∈ params, p.2 ≠ []) :
    normalize_query params
      = Except.ok (params.map (fun p => (p.1, specNormalizeParam p.2))) := by
  induction params with
  | nil => rfl
  | cons p rest ih =>
    obtain ⟨k, v⟩ := p
    have hv := normalize_query_param_nonempty v
      (h (k, v) (List.mem_cons_self (k, v) rest))
    have ihr := ih (fun x hx => h x (List.mem_cons_of_mem (k, v) hx))
    simp [normalize_query, hv, ihr]

/-- Witness for C6 at a concrete multimap with one singleton key and one
repeated key. -/
theorem C6_normalize_query_agrees_with_spec_witness :
    normalize_query [( "a", [ "1" ] ), ( "b", [ "2", "3" ] )]
      = Except.ok [( "a", QVal.one "1" ), ( "b", QVal.many [ "2", "3" ] )] :=
  C6_normalize_query_agrees_with_spec
    [( "a", [ "1" ] ), ( "b", [ "2", "3" ] )] (by decide)

/-- C9: normalize_query_param is total only on non-empty lists — a singleton
flattens to its sole element, a longer list is returned as is, the empty
list raises IndexError — and normalize_query is undefined (raises) for a
key carrying an empty value list. -/
theorem C9_normalize_query_param_totality :
    normalize_query_param [] = Except.error PyExc.indexError
    ∧ (∀ v : String, normalize_query_param [v] = Except.ok (QVal.one v))
    ∧ (∀ (v w : String) (t : List String),
        normalize_query_param (v :: w :: t)
          = Except.ok (QVal.many (v :: w :: t)))
    ∧ ∀ (k : String) (rest : List (String × List String)),
        normalize_query ((k, []) :: rest) = Except.error PyExc.indexError := by
  refine ⟨rfl, fun _ => rfl, fun v w t => ?_, fun _ _ => rfl⟩
  unfold normalize_query_param
  rw [if_pos]
  simp only [List.length_cons]
  omega

/-- Helper: an all-ok prefix does not change a failing parseEach tail. -/
theorem parseEach_ok_prefix (parse : ι → PyParse α) (pre rest : List ι)
    (e : List PErr)
    (hpre : ∀ x ∈ pre, ∃ m, parse x = PyParse.ok m)
    (hrest : parseEach parse rest = PyParse.vErr e) :
    parseEach parse (pre ++ rest) = PyParse.vErr e := by
  induction pre with
  | nil => simpa using hrest
  | cons x xs ih =>
    obtain ⟨m, hm⟩ := hpre x (List.mem_cons_self x xs)
    have ihx := ih (fun y hy => hpre y (List.mem_cons_of_mem x hy))
    simp [parseEach, hm, ihx]

/-- C2 counterexample: for the batched body
[missing-email, missing-password, valid] the combined error holds only the
first failing element's errors; the second failing element's error
(password required) is absent, so failures are not aggregated across
elements. -/
theorem C2_counterexample :
    validate_many_models parseCreateUser
        (JVal.arr [bodyMissingEmail, bodyMissingPassword, bodyValid]).pyIter
      = ManyResult.manyError [emailRequiredErr]
    ∧ passwordRequiredErr ∉ [emailRequiredErr] :=
  ⟨by decide, by decide⟩

/-- C2 (amended): with requestBodyIsMany, elements are parsed in order and
parsing stops at the first failing element, whose validation errors are the
whole combined error; a non-iterable body yields the synthetic
is-not-an-array-of-objects error. -/
theorem C2_first_failure_is_the_report (parse : ι → PyParse β) :
    validate_many_models parse none = ManyResult.manyError rootArrayError
    ∧ ∀ (pre : List ι) (bad : ι) (post : List ι) (e : List PErr),
        (∀ x ∈ pre, ∃ m, parse x = PyParse.ok m) →
        parse bad = PyParse.vErr e →
        validate_many_models parse (some (pre ++ bad :: post))
          = ManyResult.manyError e := by
  constructor
  · rfl
  · intro pre bad post e hpre hbad
    have htail : parseEach parse (bad :: post) = PyParse.vErr e := by
      simp [parseEach, hbad]
    have hall := parseEach_ok_prefix parse pre (bad :: post) e hpre htail
    simp [validate_many_models, hall]

/-- Witness for C2 (amended) on the spec's scenario [valid, invalid, valid]:
the report is exactly the one invalid element's field errors. -/
theorem C2_first_failure_is_the_report_witness :
    validate_many_models parseCreateUser
        (some ([bodyValid] ++ bodyMissingEmail :: [bodyValid]))
      = ManyResult.manyError [emailRequiredErr] :=
  (C2_first_failure_is_the_report parseCreateUser).2
    [bodyValid] bodyMissingEmail [bodyValid] [emailRequiredErr]
    (by
      intro x hx
      simp only [List.mem_singleton] at hx
      subst hx
      exact ⟨⟨ "u3", "e3", "p3"⟩, by decide⟩)
    (by decide)

/-- C5: whenever the parse phase completes and the accumulated error map is
non-empty, the wrapper returns the JSON response with status 400 and body
ErrorSchema(error = the map, code = 400), and the handler is never invoked
(zero handler calls, zero rollbacks). -/
theorem C5_validation_error_early_400
    (cfg : WConfig Q B F M E D ι φ) (sc : SerCtx M E D)
    (elems : ι → Option (List ι))
    (handler : Option Q → Option (Parsed B) → Option F → HOut M E D)
    (req : Req ι φ) (pp : ParsePhase Q B F)
    (hok : parse_phase cfg elems req = Except.ok pp)
    (hne : pp.err.isEmpty = false) :
    wrapper cfg sc elems handler req
      = ⟨WOut.response
            ⟨errSchemaBody (errMapJson pp.err) 400, 400,
              "application/json"⟩,
          some (pp.q, pp.b, pp.f), 0, 0⟩ := by
  simp [wrapper, hok, hne, respOf, make_json_response, errorSchemaJson,
    errValJson]

/-- Witness for C5: POST /v1/user/create with a body missing its email
field is answered 400 without invoking the service. -/
theorem C5_validation_error_early_400_witness :
    wrapper cfgCreate scCU JVal.pyIter (create_user_handler id [])
        ⟨[], bodyMissingEmail, JVal.null⟩
      = ⟨WOut.response
            ⟨errSchemaBody (errMapJson ⟨none, some [emailRequiredErr], none⟩)
              400, 400, "application/json"⟩,
          some (none, none, none), 0, 0⟩ :=
  C5_validation_error_early_400 cfgCreate scCU JVal.pyIter
    (create_user_handler id []) ⟨[], bodyMissingEmail, JVal.null⟩
    ⟨none, none, none, ⟨none, some [emailRequiredErr], none⟩⟩
    rfl (by decide)

/-- C7: when the parse phase succeeds with no errors and the handler raises
a SQLAlchemyError, the wrapper rolls the session back exactly once but never
returns the claimed 500 envelope: serializing
ErrorSchema(error = the raw exception object, code = 500) raises TypeError
(pydantic v1 has no JSON encoder for exception objects), which propagates
uncaught after the rollback — no JSON response is produced. -/
theorem C7_db_error_rollback_then_uncaught
    (cfg : WConfig Q B F M E D ι φ) (sc : SerCtx M E D)
    (elems : ι → Option (List ι))
    (handler : Option Q → Option (Parsed B) → Option F → HOut M E D)
    (req : Req ι φ) (pp : ParsePhase Q B F) (d : String)
    (hok : parse_phase cfg elems req = Except.ok pp)
    (hemp : pp.err.isEmpty = true)
    (hh : handler pp.q pp.b pp.f = HOut.dbError d) :
    wrapper cfg sc elems handler req
      = ⟨WOut.uncaught PyExc.typeError, some (pp.q, pp.b, pp.f), 1, 1⟩ := by
  simp [wrapper, hok, hemp, hh, respOf, make_json_response, errorSchemaJson,
    errValJson]

/-- Witness for C7: a persistence failure during create rolls back exactly
once and then dies with the uncaught TypeError instead of returning 500. -/
theorem C7_db_error_rollback_then_uncaught_witness :
    wrapper cfgCreate scCU JVal.pyIter
        (fun _ _ _ => HOut.dbError "insert failed")
        ⟨[], bodyValid, JVal.null⟩
      = ⟨WOut.uncaught PyExc.typeError,
          some (none, some (Parsed.one ⟨ "u3", "e3", "p3"⟩), none), 1, 1⟩ :=
  C7_db_error_rollback_then_uncaught cfgCreate scCU JVal.pyIter
    (fun _ _ _ => HOut.dbError "insert failed") ⟨[], bodyValid, JVal.null⟩
    ⟨none, some (Parsed.one ⟨ "u3", "e3", "p3"⟩), none, ⟨none, none, none⟩⟩
    "insert failed" rfl (by decide) rfl

/-- C10 counterexample: a POST with a declared (non-many) body schema and a
JSON body that is an array makes body(**body_params) raise an uncaught
TypeError before lines 220-222: the wrapper terminates with none of the
three request attributes set, refuting the claim that they are set on every
invocation. -/
theorem C10_counterexample :
    wrapper cfgCreate scCU JVal.pyIter (create_user_handler id [])
        ⟨[], JVal.arr [], JVal.null⟩
      = ⟨WOut.uncaught PyExc.typeError, none, 0, 0⟩ := rfl

/-- C10 (amended): on every invocation whose parse phase completes without
an uncaught exception, the wrapper sets all three request attributes
query_params, body_params and form_params — the parsed instances or None —
and it does so before the early 400 return, so they are set even on
requests that fail validation. -/
theorem C10_attrs_attached_when_parse_completes
    (cfg : WConfig Q B F M E D ι φ) (sc : SerCtx M E D)
    (elems : ι → Option (List ι))
    (handler : Option Q → Option (Parsed B) → Option F → HOut M E D)
    (req : Req ι φ) (pp : ParsePhase Q B F)
    (hok : parse_phase cfg elems req = Except.ok pp) :
    (wrapper cfg sc elems handler req).attached = some (pp.q, pp.b, pp.f) := by
  cases hemp : pp.err.isEmpty with
  | false => simp [wrapper, hok, hemp]
  | true =>
    cases hh : handler pp.q pp.b pp.f <;>
      simp [wrapper, hok, hemp, hh]

/-- Witness for C10 (amended): on a request that fails validation, the
attributes are attached (all None) even though the response is the 400. -/
theorem C10_attrs_attached_when_parse_completes_witness :
    (wrapper cfgCreate scCU JVal.pyIter (create_user_handler id [])
        ⟨[], bodyMissingEmail, JVal.null⟩).attached
      = some (none, none, none) :=
  C10_attrs_attached_when_parse_completes cfgCreate scCU JVal.pyIter
    (create_user_handler id []) ⟨[], bodyMissingEmail, JVal.null⟩
    ⟨none, none, none, ⟨none, some [emailRequiredErr], none⟩⟩ rfl

/-- C3 counterexample: with a response_model configured, responseIsMany set
and a single (non-list) model returned, the response body is the single-item
serialization, not the bracketed comma-joined array the claim requires when
responseIsMany is set. -/
theorem C3_counterexample :
    (wrapper cfgC3 scCU JVal.pyIter
        (fun _ _ _ => HOut.ret (RVal.model ⟨ "a", "a@x.com"⟩)) reqNull).out
      = WOut.response
          ⟨createdUserJson false ⟨ "a", "a@x.com"⟩, 200, "application/json"⟩
    ∧ createdUserJson false ⟨ "a", "a@x.com"⟩
        ≠ joinJson [createdUserRM.serialize false
            (Obj.pyModel ⟨ "a", "a@x.com"⟩)] :=
  ⟨by decide, by decide⟩

/-- C3 (amended): with a response_model configured, the handler's return
value is serialized through it as a bracketed, comma-joined JSON array if
and only if the value is itself a Python list (isinstance(res, list));
responseIsMany is not consulted on this branch (both conjuncts hold for
either value of it), and the configured success status is used. -/
theorem C3_response_model_array_iff_list
    (rm : RespModel M E D) (sc : SerCtx M E D) (status : Nat)
    (ex rmany rbmany : Bool) (elems : ι → Option (List ι)) (req : Req ι φ) :
    (∀ objs : List (Obj M E D),
      wrapper
          (⟨none, none, none, status, ex, rmany, rbmany, some rm⟩ :
            WConfig Unit Unit Unit M E D ι φ) sc elems
          (fun _ _ _ => HOut.ret (RVal.list objs)) req
        = ⟨WOut.response
              ⟨joinJson (objs.map (rm.serialize ex)), status,
                "application/json"⟩,
            some (none, none, none), 1, 0⟩)
    ∧ ∀ m : M,
      wrapper
          (⟨none, none, none, status, ex, rmany, rbmany, some rm⟩ :
            WConfig Unit Unit Unit M E D ι φ) sc elems
          (fun _ _ _ => HOut.ret (RVal.model m)) req
        = ⟨WOut.response
              ⟨rm.serialize ex (Obj.pyModel m), status, "application/json"⟩,
            some (none, none, none), 1, 0⟩ :=
  ⟨fun _ => rfl, fun _ => rfl⟩

/-- C4 counterexample: with responseIsMany set and no response_model, an
empty list returned by the handler is accepted by is_iterable_of_models
(Python all is vacuously true) and serialized as the empty JSON array with
the success status — it does not raise the invalid-iterable exception the
claim requires for sequences that are not non-empty. -/
theorem C4_counterexample :
    wrapper cfgC4 scCU JVal.pyIter
        (fun _ _ _ => HOut.ret (RVal.list [])) reqNull
      = ⟨WOut.response ⟨ "[]", 200, "application/json"⟩,
          some (none, none, none), 1, 0⟩
    ∧ is_iterable_of_models (some ([] : List (Obj CreatedUser Unit Unit)))
        = true :=
  ⟨by decide, by decide⟩

/-- C4 (amended): with responseIsMany set and no response_model, the wrapper
serializes the return value as a JSON array when it is a homogeneous —
possibly empty — sequence of recognized schema-capable objects, and
otherwise raises InvalidIterableOfModelsException, which propagates uncaught
instead of becoming an HTTP error response. -/
theorem C4_response_many_dichotomy
    (sc : SerCtx M E D) (status : Nat) (ex rbmany : Bool)
    (elems : ι → Option (List ι)) (req : Req ι φ) (res : RVal M E D) :
    (is_iterable_of_models res.iterItems = false →
      wrapper
          (⟨none, none, none, status, ex, true, rbmany, none⟩ :
            WConfig Unit Unit Unit M E D ι φ) sc elems
          (fun _ _ _ => HOut.ret res) req
        = ⟨WOut.uncaught PyExc.invalidIterableOfModels,
            some (none, none, none), 1, 0⟩)
    ∧ ∀ (objs : List (Obj M E D)) (ss : List String),
        res = RVal.list objs →
        is_iterable_of_models (some objs) = true →
        collectJson (objs.map (sc.objJson ex)) = Except.ok ss →
        wrapper
            (⟨none, none, none, status, ex, true, rbmany, none⟩ :
              WConfig Unit Unit Unit M E D ι φ) sc elems
            (fun _ _ _ => HOut.ret res) req
          = ⟨WOut.response ⟨joinJson ss, status, "application/json"⟩,
              some (none, none, none), 1, 0⟩ := by
  constructor
  · intro h
    simp [wrapper, parse_phase, parseQueryStep, parseBodyStep, parseFormStep,
      ErrMap.isEmpty, serialize_phase, h]
  · rintro objs ss rfl hiter hcol
    simp [wrapper, parse_phase, parseQueryStep, parseBodyStep, parseFormStep,
      ErrMap.isEmpty, serialize_phase, hiter, make_json_response,
      RVal.iterItems, Content.items, hcol, respOf]

/-- Witness for C4 (amended): a non-iterable return value raises the
uncaught exception; a list of pydantic models serializes as the joined
array. -/
theorem C4_response_many_dichotomy_witness :
    wrapper cfgC4 scCU JVal.pyIter
        (fun _ _ _ => HOut.ret RVal.nonIter) reqNull
      = ⟨WOut.uncaught PyExc.invalidIterableOfModels,
          some (none, none, none), 1, 0⟩
    ∧ wrapper cfgC4 scCU JVal.pyIter
        (fun _ _ _ => HOut.ret (RVal.list [Obj.pyModel ⟨ "a", "b"⟩])) reqNull
      = ⟨WOut.response
            ⟨joinJson [createdUserJson false ⟨ "a", "b"⟩], 200,
              "application/json"⟩,
          some (none, none, none), 1, 0⟩ :=
  ⟨(C4_response_many_dichotomy scCU 200 false false JVal.pyIter reqNull
      RVal.nonIter).1 (by decide),
    (C4_response_many_dichotomy scCU 200 false false JVal.pyIter reqNull
      (RVal.list [Obj.pyModel ⟨ "a", "b"⟩])).2
      [Obj.pyModel ⟨ "a", "b"⟩] [createdUserJson false ⟨ "a", "b"⟩]
      rfl (by decide) rfl⟩

/-- C1: GET /v1/user/get-all never returns the 200 users list: the route
handler calls UserService(db.session).get_all_users(), but UserService
defines no get_all_users method, so for every database state the wrapper
ends with an uncaught AttributeError; in particular with zero users the
response is not 200 with body containing an empty users array. -/
theorem C1_get_all_users_attribute_error :
    (∀ rows : List UsersRow,
      wrapper cfgGetAll scCU JVal.pyIter
          (fun _ _ _ => get_all_users_handler rows) reqNull
        = ⟨WOut.uncaught PyExc.attributeError, some (none, none, none), 1, 0⟩)
    ∧ (wrapper cfgGetAll scCU JVal.pyIter
          (fun _ _ _ => get_all_users_handler ([] : List UsersRow))
          reqNull).out
        ≠ WOut.response
            ⟨ "\x7b\"users\": []\x7d", 200, "application/json"⟩ :=
  ⟨fun _ => rfl, by decide⟩

/-- C8: the duplicate-user 403 can never be produced: create_user calls
user_exists, whose filter accesses UsersModel.username — an attribute the
model does not declare (its columns are fullname, email, password) — so for
every database state and every input the service raises AttributeError
before checking existence or persisting, and the full POST /v1/user/create
pipeline on the spec's request ends with that exception propagating
uncaught instead of a 403 response. -/
theorem C8_create_user_attribute_error :
    (∀ (hash : String → String) (rows : List UsersRow) (u e p : String),
      create_user hash rows u e p = Except.error PyExc.attributeError)
    ∧ ∀ (hash : String → String) (rows : List UsersRow),
      wrapper cfgCreate scCU JVal.pyIter (create_user_handler hash rows)
          ⟨[], bodyCreateA, JVal.null⟩
        = ⟨WOut.uncaught PyExc.attributeError,
            some (none, some (Parsed.one ⟨ "a", "a@x.com", "p"⟩), none),
            1, 0⟩ :=
  ⟨fun _ _ _ _ _ => rfl, fun _ _ => rfl⟩
